import Mathlib

/-!
Shallow embedding of the presence-aware delivery core of the chat backend
(Redis presence registry, Redis pub/sub fan-out, RabbitMQ offline queue,
MongoDB-backed message store and drain), together with theorems settling
the specification claims about it.

Timestamps are modelled as natural numbers (milliseconds since epoch).
Redis keys/sets are modelled as functions from user id; the MongoDB
message collection is modelled as a list of messages in insertion order
(a `find` without `sort` returns natural, i.e. insertion, order).
-/

/-- Retention window used throughout the code: 24 hours in milliseconds. -/
def DAY_MS : Nat := 24 * 60 * 60 * 1000

/-! ## Presence registry (src/services/presenceManager.js, Redis part) -/

/-- State of the Redis store used by the presence manager:
`presence u` is whether the key `user_presence:<u>` exists,
`onlineUsers u` is membership of `u` in the `online_users` set, and
`sockets u` is the member list of the set `user_sockets:<u>`. -/
structure RedisState where
  presence : String → Bool
  onlineUsers : String → Bool
  sockets : String → List String

/-- Value returned by `setUserOffline`: either
`{status:'offline', userId}` or `{status:'online', userId, socketsRemaining}`. -/
structure OfflineResult where
  status : String
  userId : String
  socketsRemaining : Option Nat
deriving DecidableEq, Repr

/-- Database side effect of `setUserOffline` (the `User.findByIdAndUpdate`
call setting the user document's status field). -/
structure DbStatusUpdate where
  userId : String
  newStatus : String
deriving DecidableEq, Repr

/-- Embedding of `setUserOffline` (presenceManager.js lines 76-131):
`srem` the socket id from `user_sockets:<userId>`, `scard` the remainder;
if zero, `del user_presence:<userId>`, `srem online_users userId`, update the
user document to offline and return `{status:'offline'}`, otherwise return
`{status:'online', socketsRemaining}`. -/
def setUserOffline (s : RedisState) (userId socketId : String) :
    RedisState × OfflineResult × List DbStatusUpdate :=
  let remaining := (s.sockets userId).filter (fun x => !(x == socketId))
  let s1 : RedisState :=
    { s with sockets := fun v => if v == userId then remaining else s.sockets v }
  let socketCount := remaining.length
  if socketCount = 0 then
    let s2 : RedisState :=
      { s1 with
        presence := fun v => if v == userId then false else s1.presence v,
        onlineUsers := fun v => if v == userId then false else s1.onlineUsers v }
    (s2, { status := "offline", userId := userId, socketsRemaining := none },
      [{ userId := userId, newStatus := "offline" }])
  else
    (s1, { status := "online", userId := userId, socketsRemaining := some socketCount }, [])

/-! ## Redis pub/sub handlers (src/services/redisPubSub.js) -/

/-- Payload carried in a bus event; the code only ever inspects `data.chatId`
(in the presence handler's `chat:message` case), the rest is opaque. -/
structure EventPayload where
  chatId : String
  body : String
deriving DecidableEq, Repr

/-- Envelope published on the `presence_events` channel:
`{event, data, timestamp, serverId}`. -/
structure PresenceEventData where
  event : String
  data : EventPayload
  timestamp : Nat
  serverId : String
deriving DecidableEq, Repr

/-- Envelope published on the `chat_events` channel:
`{event, chatId, data, timestamp, serverId}`. -/
structure ChatEventData where
  event : String
  chatId : String
  data : EventPayload
  timestamp : Nat
  serverId : String
deriving DecidableEq, Repr

/-- Socket.IO emission performed by a pub/sub handler: either `io.emit`
to every connected client or `io.to(room).emit`. -/
inductive IoEmit where
  | toAll (event : String) (data : EventPayload)
  | toRoom (room : String) (event : String) (data : EventPayload)
deriving DecidableEq, Repr

/-- Embedding of the first `subscriberClient.on('message')` listener
(redisPubSub.js lines 23-59): handles the `presence_events` channel,
returning the list of Socket.IO emissions it performs. Events originating
from this server (`serverId === config.SERVER_ID`) are skipped. -/
def presenceEventsOnMessage (ownServerId channel : String)
    (ed : PresenceEventData) : List IoEmit :=
  if channel == "presence_events" then
    if ed.serverId == ownServerId then []
    else if ed.event == "user:online" then [IoEmit.toAll "user:online" ed.data]
    else if ed.event == "user:offline" then [IoEmit.toAll "user:offline" ed.data]
    else if ed.event == "user:status_change" then [IoEmit.toAll "user:statusChanged" ed.data]
    else if ed.event == "chat:message" then
      [IoEmit.toRoom ("chat:" ++ ed.data.chatId) "message:received" ed.data]
    else []
  else []

/-- Embedding of the second `subscriberClient.on('message')` listener
(redisPubSub.js lines 75-115): handles the `chat_events` channel,
returning the list of Socket.IO emissions it performs. Events originating
from this server are skipped. -/
def chatEventsOnMessage (ownServerId channel : String)
    (ed : ChatEventData) : List IoEmit :=
  if channel == "chat_events" then
    if ed.serverId == ownServerId then []
    else
      let room := "chat:" ++ ed.chatId
      if ed.event == "message:sent" then [IoEmit.toRoom room "message:received" ed.data]
      else if ed.event == "message:edited" then [IoEmit.toRoom room "message:edited" ed.data]
      else if ed.event == "message:deleted" then [IoEmit.toRoom room "message:deleted" ed.data]
      else if ed.event == "user:typing" then [IoEmit.toRoom room "user:typing" ed.data]
      else if ed.event == "user:stoppedTyping" then
        [IoEmit.toRoom room "user:stoppedTyping" ed.data]
      else []
  else []

/-! ## Message store (src/models/Message.js) and drain
     (messageQueue service: getQueuedMessages / deliverQueuedMessages) -/

/-- One element of a message's `readBy` array: `{userId, readAt}`. -/
structure ReadEntry where
  userId : String
  readAt : Nat
deriving DecidableEq, Repr

/-- A MongoDB message document (Message.js). Fields no claim-relevant
operation examines (attachments, reactions, reply/edit metadata) are
elided; `content` stands in for the opaque payload. -/
structure Message where
  msgId : Nat
  chatId : String
  senderId : String
  content : String
  createdAt : Nat
  readBy : List ReadEntry
  isDeleted : Bool
deriving DecidableEq, Repr

/-- Whether the message has a `readBy` entry for the user; the Mongo filter
`'readBy.userId': {$ne: u}` selects exactly the messages where this is false. -/
def readByUser (m : Message) (u : String) : Bool :=
  m.readBy.any (fun e => e.userId == u)

/-- Embedding of `getQueuedMessages` (messageQueue service): finds messages
with no `readBy` entry for the user and `createdAt >= Date.now() - 24h`;
no sort, so insertion (natural) order is preserved. -/
def getQueuedMessages (db : List Message) (userId : String) (now : Nat) : List Message :=
  db.filter (fun m => !readByUser m userId && decide (now - DAY_MS ≤ m.createdAt))

/-- Stable insertion step for sorting by `createdAt` descending,
modelling Mongo's `.sort({createdAt: -1})`. -/
def insertByCreatedAtDesc (m : Message) : List Message → List Message
  | [] => [m]
  | x :: xs =>
    if x.createdAt < m.createdAt then m :: x :: xs
    else x :: insertByCreatedAtDesc m xs

/-- Stable sort by `createdAt` descending (newest first), modelling Mongo's
`.sort({createdAt: -1})`. -/
def sortByCreatedAtDesc : List Message → List Message
  | [] => []
  | x :: xs => insertByCreatedAtDesc x (sortByCreatedAtDesc xs)

/-- The list of messages selected by `deliverQueuedMessages` before emitting:
unread-by-user messages, sorted by `createdAt` descending, `.limit(1000)`.
Note there is no `createdAt`/expiry filter and no chat-membership filter. -/
def drainList (db : List Message) (userId : String) : List Message :=
  (sortByCreatedAtDesc (db.filter (fun m => !readByUser m userId))).take 1000

/-- Embedding of the `$addToSet: {readBy: {userId, readAt: new Date()}}`
update: appends the entry unless an identical subdocument is present. -/
def addToSetReadBy (u : String) (now : Nat) (m : Message) : Message :=
  if m.readBy.any (fun e => e.userId == u && e.readAt == now) then m
  else { m with readBy := m.readBy ++ [{ userId := u, readAt := now }] }

/-- Socket.IO emission of `deliverQueuedMessages`: the single
`socket.emit('messages:queued', {count, messages})`. -/
structure QueuedEmit where
  event : String
  count : Nat
deriving DecidableEq, Repr

/-- Result of `deliverQueuedMessages`: the updated message collection, the
socket emissions performed, and the returned message list. -/
structure DeliverResult where
  newDb : List Message
  emits : List QueuedEmit
  returned : List Message
deriving DecidableEq, Repr

/-- Embedding of `deliverQueuedMessages` (messageQueue service): selects the
unread messages for the user (newest first, limit 1000); if any, emits them
in one `messages:queued` event and immediately marks every selected message
with a `readBy` entry for the user via `updateMany`/`$addToSet`. -/
def deliverQueuedMessages (db : List Message) (userId : String) (now : Nat) : DeliverResult :=
  if (drainList db userId).isEmpty then
    { newDb := db, emits := [], returned := [] }
  else
    { newDb := db.map (fun m =>
        if (drainList db userId).any (fun r => r.msgId == m.msgId) then
          addToSetReadBy userId now m
        else m),
      emits := [{ event := "messages:queued", count := (drainList db userId).length }],
      returned := drainList db userId }

/-! ## Offline queue (messageQueue service + src/config/rabbitmq.js) -/

/-- The envelope built by `queueOfflineMessage` and sent to the
`offline_messages` queue. -/
structure OfflineMessage where
  userId : String
  chatId : String
  messageId : Nat
  senderId : String
  content : String
  createdAt : Nat
  expiresAt : Nat
deriving DecidableEq, Repr

/-- Embedding of `queueOfflineMessage` (messageQueue service): builds the
offline envelope with `createdAt: new Date()` and
`expiresAt: new Date(Date.now() + 24h)`. -/
def queueOfflineMessage (userId chatId : String) (message : Message) (now : Nat) :
    OfflineMessage :=
  { userId := userId, chatId := chatId, messageId := message.msgId,
    senderId := message.senderId, content := message.content,
    createdAt := now, expiresAt := now + DAY_MS }

/-- The `offline_messages` RabbitMQ queue bounded by the `x-max-length`
argument set in `assertQueue` (100000 in `initializeMessageQueue`, default
10000). The bound is per queue — one queue shared by all recipients — and on
overflow the broker drops from the head, i.e. the globally oldest envelope. -/
def sendToQueueCapped (cap : Nat) (q : List OfflineMessage) (m : OfflineMessage) :
    List OfflineMessage :=
  (q ++ [m]).drop ((q.length + 1) - cap)

/-! ## Delivery tracking (messageQueue service: trackMessageDelivery) -/

/-- The delivery record built by `trackMessageDelivery`. -/
structure DeliveryRecord where
  messageId : Nat
  userId : String
  status : String
  timestamp : Nat
  deliveredAt : Nat
deriving DecidableEq, Repr

/-- One message published on a RabbitMQ exchange. -/
structure BusMessage where
  exchange : String
  routingKey : String
  record : DeliveryRecord
deriving DecidableEq, Repr

/-- Embedding of `trackMessageDelivery` (messageQueue service): builds a fresh
delivery record and unconditionally publishes it to
`offline_messages_exchange` with routing key `delivery_status`; the state is
the list of messages published so far. -/
def trackMessageDelivery (published : List BusMessage) (messageId : Nat)
    (userId : String) (status : String) (now : Nat) : List BusMessage :=
  published ++
    [{ exchange := "offline_messages_exchange", routingKey := "delivery_status",
       record := { messageId := messageId, userId := userId, status := status,
                   timestamp := now, deliveredAt := now } }]

/-! ## Dispatch: the message:send socket handler
     (socket/chatEvents.js, initializeSocketEvents) -/

/-- A chat document (the fields `message:send` reads and writes). -/
structure Chat where
  chatId : String
  participants : List String
  lastMessage : Option Nat
  lastMessageTime : Option Nat
  messageCount : Nat
deriving DecidableEq, Repr

/-- External effect performed by the `message:send` handler. An
`enqueueOffline` action would correspond to a `queueOfflineMessage` call;
the constructor exists so that its absence from the handler's output is a
statement about the code, not about the vocabulary. -/
inductive SendAction where
  | emitToRoom (room event : String) (msgId : Nat)
  | emitToSender (event : String) (msgId : Nat)
  | errorToSender (text : String)
  | enqueueOffline (recipientId chatId : String) (msgId : Nat)
deriving DecidableEq, Repr

/-- Whether an action is a hand-off to the offline queue. -/
def isEnqueueOffline : SendAction → Bool
  | SendAction.enqueueOffline _ _ _ => true
  | _ => false

/-- The message document `message:send` saves: sender-read only
(`readBy: [{userId: senderId, readAt: new Date()}]`). -/
def newMessageOf (senderId chatId content : String) (now newId : Nat) : Message :=
  { msgId := newId, chatId := chatId, senderId := senderId, content := content,
    createdAt := now, readBy := [{ userId := senderId, readAt := now }],
    isDeleted := false }

/-- Result of the `message:send` handler: updated chat collection, updated
message collection, and the effects performed. -/
structure SendOutcome where
  chats : List Chat
  db : List Message
  actions : List SendAction
deriving DecidableEq, Repr

/-- Embedding of the `message:send` handler (chatEvents.js lines 106-156):
verify the sender is a participant, save the message (read by sender only),
update the chat's last-message bookkeeping, broadcast `message:received` to
the room `chat:<chatId>`, and acknowledge `message:sent` to the sender.
No presence lookup and no offline queueing occurs in this handler. -/
def messageSendHandler (chats : List Chat) (db : List Message)
    (senderId chatId content : String) (now newId : Nat) : SendOutcome :=
  match chats.find? (fun c => c.chatId == chatId) with
  | none =>
    { chats := chats, db := db,
      actions := [SendAction.errorToSender "Not authorized to send messages in this chat"] }
  | some chat =>
    if chat.participants.contains senderId then
      { chats := chats.map (fun c =>
          if c.chatId == chatId then
            { c with lastMessage := some newId, lastMessageTime := some now,
                     messageCount := c.messageCount + 1 }
          else c),
        db := db ++ [newMessageOf senderId chatId content now newId],
        actions := [SendAction.emitToRoom ("chat:" ++ chatId) "message:received" newId,
                    SendAction.emitToSender "message:sent" newId] }
    else
      { chats := chats, db := db,
        actions := [SendAction.errorToSender "Not authorized to send messages in this chat"] }

/-! ## Concrete inputs used by counterexamples and witnesses -/

/-- Concrete Redis state used as the witness input for C8: user `u1` online
with the single socket `s1`. -/
def exRedis : RedisState :=
  { presence := fun v => v == "u1",
    onlineUsers := fun v => v == "u1",
    sockets := fun v => if v == "u1" then ["s1"] else [] }

/-- Chat `c1` between `alice` and `bob`. -/
def exChatC1 : Chat :=
  { chatId := "c1", participants := ["alice", "bob"],
    lastMessage := none, lastMessageTime := none, messageCount := 0 }

/-- Message enqueued first (older) for the C2 counterexample. -/
def exM1 : Message :=
  { msgId := 1, chatId := "c1", senderId := "s", content := "m1",
    createdAt := 100, readBy := [{ userId := "s", readAt := 100 }], isDeleted := false }

/-- Message enqueued second (newer) for the C2 counterexample. -/
def exM2 : Message :=
  { msgId := 2, chatId := "c1", senderId := "s", content := "m2",
    createdAt := 200, readBy := [{ userId := "s", readAt := 200 }], isDeleted := false }

/-- Message unread by `r`, used by the C3 counterexample and witness. -/
def exM3a : Message :=
  { msgId := 31, chatId := "c1", senderId := "s", content := "a",
    createdAt := 100, readBy := [{ userId := "s", readAt := 100 }], isDeleted := false }

/-- Message created at time 0, past its 24-hour window at the drain time used
in the C6 counterexample. -/
def exM6 : Message :=
  { msgId := 61, chatId := "c1", senderId := "s", content := "old",
    createdAt := 0, readBy := [{ userId := "s", readAt := 0 }], isDeleted := false }

/-- Recent message used by the C6 witness. -/
def exM6w : Message :=
  { msgId := 62, chatId := "c1", senderId := "s", content := "recent",
    createdAt := 100, readBy := [{ userId := "s", readAt := 100 }], isDeleted := false }

/-- Oldest of three messages for recipient `b` (C7 counterexample). -/
def exM7a : Message :=
  { msgId := 71, chatId := "c7", senderId := "s", content := "m7a",
    createdAt := 100, readBy := [{ userId := "s", readAt := 100 }], isDeleted := false }

/-- Middle of three messages for recipient `b` (C7 counterexample). -/
def exM7b : Message :=
  { msgId := 72, chatId := "c7", senderId := "s", content := "m7b",
    createdAt := 200, readBy := [{ userId := "s", readAt := 200 }], isDeleted := false }

/-- Newest of three messages for recipient `b` (C7 counterexample). -/
def exM7c : Message :=
  { msgId := 73, chatId := "c7", senderId := "s", content := "m7c",
    createdAt := 300, readBy := [{ userId := "s", readAt := 300 }], isDeleted := false }

/-- Offline envelope for recipient `b`, oldest in the C7 queue scenario. -/
def exO1 : OfflineMessage :=
  { userId := "b", chatId := "c7", messageId := 71, senderId := "s",
    content := "m7a", createdAt := 100, expiresAt := 100 + DAY_MS }

/-- Offline envelope for recipient `b`, middle of the C7 queue scenario. -/
def exO2 : OfflineMessage :=
  { userId := "b", chatId := "c7", messageId := 72, senderId := "s",
    content := "m7b", createdAt := 200, expiresAt := 200 + DAY_MS }

/-- Offline envelope for recipient `b`, newest of the C7 queue scenario. -/
def exO3 : OfflineMessage :=
  { userId := "b", chatId := "c7", messageId := 73, senderId := "s",
    content := "m7c", createdAt := 300, expiresAt := 300 + DAY_MS }

/-- Offline envelope for recipient `a`, oldest in the shared queue (C7). -/
def exOA : OfflineMessage :=
  { userId := "a", chatId := "c7", messageId := 74, senderId := "s",
    content := "forA", createdAt := 50, expiresAt := 50 + DAY_MS }

/-- First offline envelope for recipient `b` in the shared queue (C7). -/
def exOB1 : OfflineMessage :=
  { userId := "b", chatId := "c7", messageId := 75, senderId := "s",
    content := "forB1", createdAt := 60, expiresAt := 60 + DAY_MS }

/-- Second offline envelope for recipient `b` in the shared queue (C7). -/
def exOB2 : OfflineMessage :=
  { userId := "b", chatId := "c7", messageId := 76, senderId := "s",
    content := "forB2", createdAt := 70, expiresAt := 70 + DAY_MS }

/-- Message in chat `c10` whose participants do not include `r`, used by the
C10 witness: drain for `r` still returns it. -/
def exM10 : Message :=
  { msgId := 101, chatId := "c10", senderId := "s", content := "m10",
    createdAt := 100, readBy := [{ userId := "s", readAt := 100 }], isDeleted := false }

/-! ## Helper lemmas about the sort used by deliverQueuedMessages -/

/-- Membership is preserved by the descending insertion step. -/
theorem mem_insertByCreatedAtDesc {y m : Message} {l : List Message} :
    y ∈ insertByCreatedAtDesc m l ↔ y = m ∨ y ∈ l := by
  induction l with
  | nil => simp [insertByCreatedAtDesc]
  | cons x xs ih =>
    simp only [insertByCreatedAtDesc]
    split
    · simp [List.mem_cons]
    · simp only [List.mem_cons, ih]
      tauto

/-- The descending insertion step grows the length by one. -/
theorem length_insertByCreatedAtDesc (m : Message) (l : List Message) :
    (insertByCreatedAtDesc m l).length = l.length + 1 := by
  induction l with
  | nil => rfl
  | cons x xs ih =>
    simp only [insertByCreatedAtDesc]
    split
    · rfl
    · simp [ih]

/-- Membership is preserved by the descending sort. -/
theorem mem_sortByCreatedAtDesc {y : Message} {l : List Message} :
    y ∈ sortByCreatedAtDesc l ↔ y ∈ l := by
  induction l with
  | nil => simp [sortByCreatedAtDesc]
  | cons x xs ih => simp [sortByCreatedAtDesc, mem_insertByCreatedAtDesc, ih]

/-- The descending sort preserves length. -/
theorem length_sortByCreatedAtDesc (l : List Message) :
    (sortByCreatedAtDesc l).length = l.length := by
  induction l with
  | nil => rfl
  | cons x xs ih => simp [sortByCreatedAtDesc, length_insertByCreatedAtDesc, ih]

/-- The descending insertion step preserves descending sortedness. -/
theorem pairwise_insertByCreatedAtDesc {m : Message} {l : List Message}
    (h : l.Pairwise (fun a b => b.createdAt ≤ a.createdAt)) :
    (insertByCreatedAtDesc m l).Pairwise (fun a b => b.createdAt ≤ a.createdAt) := by
  induction l with
  | nil => simp [insertByCreatedAtDesc]
  | cons x xs ih =>
    rcases List.pairwise_cons.mp h with ⟨hx, hxs⟩
    simp only [insertByCreatedAtDesc]
    split
    · rename_i hlt
      refine List.pairwise_cons.mpr ⟨?_, h⟩
      intro y hy
      rcases List.mem_cons.mp hy with rfl | hy'
      · exact Nat.le_of_lt hlt
      · exact le_trans (hx y hy') (Nat.le_of_lt hlt)
    · rename_i hge
      refine List.pairwise_cons.mpr ⟨?_, ih hxs⟩
      intro y hy
      rcases mem_insertByCreatedAtDesc.mp hy with rfl | hy'
      · exact Nat.le_of_not_lt hge
      · exact hx y hy'

/-- The descending sort produces a `createdAt`-descending list. -/
theorem pairwise_sortByCreatedAtDesc (l : List Message) :
    (sortByCreatedAtDesc l).Pairwise (fun a b => b.createdAt ≤ a.createdAt) := by
  induction l with
  | nil => simp [sortByCreatedAtDesc]
  | cons x xs ih => exact pairwise_insertByCreatedAtDesc ih

/-- After the `$addToSet` update, the message always has a `readBy` entry for
the user. -/
theorem readByUser_addToSetReadBy (u : String) (now : Nat) (m : Message) :
    readByUser (addToSetReadBy u now m) u = true := by
  unfold addToSetReadBy readByUser
  split
  · rename_i h
    rw [List.any_eq_true] at h ⊢
    obtain ⟨e, he, hcond⟩ := h
    simp only [Bool.and_eq_true] at hcond
    exact ⟨e, he, hcond.1⟩
  · simp [List.any_append]

/-! ## Claim C8 (confirmed) -/

/-- C8: `setUserOffline` removes exactly the given socket id from that user's
socket set (leaving every other user's set, presence key and online-set
membership untouched), reports `offline` exactly when no sockets remain, in
which case the presence key is deleted, the user is removed from the
`online_users` set and the user document is set offline; otherwise it reports
`online` with the remaining socket count and retires nothing. -/
theorem C8_unregister (s : RedisState) (u sid v : String) (hv : (v == u) = false) :
    ((setUserOffline s u sid).1.sockets u = (s.sockets u).filter (fun x => !(x == sid)))
    ∧ ((setUserOffline s u sid).1.sockets v = s.sockets v)
    ∧ ((setUserOffline s u sid).2.1.userId = u)
    ∧ ((setUserOffline s u sid).2.1.status = "offline"
        ↔ (s.sockets u).filter (fun x => !(x == sid)) = [])
    ∧ ((s.sockets u).filter (fun x => !(x == sid)) = [] →
        (setUserOffline s u sid).1.presence u = false
        ∧ (setUserOffline s u sid).1.onlineUsers u = false
        ∧ (setUserOffline s u sid).2.2 = [{ userId := u, newStatus := "offline" }])
    ∧ ((s.sockets u).filter (fun x => !(x == sid)) ≠ [] →
        (setUserOffline s u sid).2.1.status = "online"
        ∧ (setUserOffline s u sid).2.1.socketsRemaining
            = some ((s.sockets u).filter (fun x => !(x == sid))).length
        ∧ (setUserOffline s u sid).1.presence u = s.presence u
        ∧ (setUserOffline s u sid).1.onlineUsers u = s.onlineUsers u)
    ∧ ((setUserOffline s u sid).1.presence v = s.presence v)
    ∧ ((setUserOffline s u sid).1.onlineUsers v = s.onlineUsers v) := by
  have hvne : v ≠ u := by simpa using hv
  by_cases h : ((s.sockets u).filter (fun x => !(x == sid))).length = 0
  · have hnil : (s.sockets u).filter (fun x => !(x == sid)) = [] :=
      List.length_eq_zero.mp h
    simp [setUserOffline, h, hnil, hv, hvne]
  · have hne : (s.sockets u).filter (fun x => !(x == sid)) ≠ [] := by
      intro hc
      exact h (by simp [hc])
    simp [setUserOffline, h, hne, hv, hvne]

/-- Witness for C8 at a concrete input: removing the last socket of `u1`
retires the presence record and reports offline, and leaves user `v2` alone. -/
theorem C8_unregister_witness :
    ((setUserOffline exRedis "u1" "s1").1.sockets "u1"
        = (exRedis.sockets "u1").filter (fun x => !(x == "s1")))
    ∧ ((setUserOffline exRedis "u1" "s1").1.sockets "v2" = exRedis.sockets "v2")
    ∧ ((setUserOffline exRedis "u1" "s1").2.1.userId = "u1")
    ∧ ((setUserOffline exRedis "u1" "s1").2.1.status = "offline"
        ↔ (exRedis.sockets "u1").filter (fun x => !(x == "s1")) = [])
    ∧ ((exRedis.sockets "u1").filter (fun x => !(x == "s1")) = [] →
        (setUserOffline exRedis "u1" "s1").1.presence "u1" = false
        ∧ (setUserOffline exRedis "u1" "s1").1.onlineUsers "u1" = false
        ∧ (setUserOffline exRedis "u1" "s1").2.2
            = [{ userId := "u1", newStatus := "offline" }])
    ∧ ((exRedis.sockets "u1").filter (fun x => !(x == "s1")) ≠ [] →
        (setUserOffline exRedis "u1" "s1").2.1.status = "online"
        ∧ (setUserOffline exRedis "u1" "s1").2.1.socketsRemaining
            = some ((exRedis.sockets "u1").filter (fun x => !(x == "s1"))).length
        ∧ (setUserOffline exRedis "u1" "s1").1.presence "u1" = exRedis.presence "u1"
        ∧ (setUserOffline exRedis "u1" "s1").1.onlineUsers "u1" = exRedis.onlineUsers "u1")
    ∧ ((setUserOffline exRedis "u1" "s1").1.presence "v2" = exRedis.presence "v2")
    ∧ ((setUserOffline exRedis "u1" "s1").1.onlineUsers "v2" = exRedis.onlineUsers "v2") :=
  C8_unregister exRedis "u1" "s1" "v2" (by decide)

/-! ## Claim C9 (confirmed) -/

/-- C9: a replica whose own server identifier equals the envelope's origin
server identifier performs no Socket.IO emission for that envelope, on
both the `presence_events` and `chat_events` handlers. -/
theorem C9_self_origin_skipped (ownServerId channel : String)
    (pd : PresenceEventData) (cd : ChatEventData)
    (hp : pd.serverId = ownServerId) (hc : cd.serverId = ownServerId) :
    presenceEventsOnMessage ownServerId channel pd = []
    ∧ chatEventsOnMessage ownServerId channel cd = [] := by
  constructor
  · simp only [presenceEventsOnMessage, hp, beq_self_eq_true, if_true]
    split <;> simp
  · simp only [chatEventsOnMessage, hc, beq_self_eq_true, if_true]
    split <;> simp

/-- Witness for C9 at a concrete input: a self-originated envelope on each
channel yields no emission. -/
theorem C9_self_origin_skipped_witness :
    presenceEventsOnMessage "srv-1" "presence_events"
        { event := "user:online", data := { chatId := "c1", body := "x" },
          timestamp := 5, serverId := "srv-1" } = []
    ∧ chatEventsOnMessage "srv-1" "chat_events"
        { event := "message:sent", chatId := "c1",
          data := { chatId := "c1", body := "x" },
          timestamp := 5, serverId := "srv-1" } = [] :=
  C9_self_origin_skipped "srv-1" "presence_events"
    { event := "user:online", data := { chatId := "c1", body := "x" },
      timestamp := 5, serverId := "srv-1" }
    { event := "message:sent", chatId := "c1",
      data := { chatId := "c1", body := "x" },
      timestamp := 5, serverId := "srv-1" }
    rfl rfl

/-! ## Claim C1 (code bug: dispatch never hands anything to the offline queue) -/

/-- C1: evaluation of the `message:send` handler at the failing input —
`alice` sends in chat `c1` whose other participant `bob` has no reachable
connection (no presence is even consulted): the handler only broadcasts to
the joined room and acknowledges the sender; no action in its output is a
hand-off to the offline queue (`queueOfflineMessage` is never invoked). -/
theorem C1_dispatch_never_queues :
    (messageSendHandler [exChatC1] [] "alice" "c1" "hi" 100 1).actions
      = [SendAction.emitToRoom "chat:c1" "message:received" 1,
         SendAction.emitToSender "message:sent" 1]
    ∧ (messageSendHandler [exChatC1] [] "alice" "c1" "hi" 100 1).actions.all
        (fun a => !(isEnqueueOffline a)) = true := by
  decide

/-! ## Claim C2 (corrected: deliverQueuedMessages returns newest first) -/

/-- C2 counterexample: `exM1` is enqueued strictly before `exM2` for the same
recipient `r`, yet `deliverQueuedMessages` returns `exM2` before `exM1`
(it sorts by `createdAt` descending), refuting the FIFO claim. -/
theorem C2_cex_drain_newest_first :
    exM1.createdAt < exM2.createdAt
    ∧ (deliverQueuedMessages [exM1, exM2] "r" 300).returned = [exM2, exM1]
    ∧ (deliverQueuedMessages [exM1, exM2] "r" 300).returned ≠ [exM1, exM2] := by
  decide

/-- C2 (amended): `getQueuedMessages` preserves enqueue (insertion) order —
its result is a sublist of the store — while `deliverQueuedMessages` returns
messages in reverse chronological order (`createdAt` descending, newest
first), not FIFO. -/
theorem C2_amended_drain_order (db : List Message) (u : String) (now : Nat) :
    List.Sublist (getQueuedMessages db u now) db
    ∧ (deliverQueuedMessages db u now).returned.Pairwise
        (fun a b => b.createdAt ≤ a.createdAt) := by
  constructor
  · exact List.filter_sublist db
  · rw [deliverQueuedMessages]
    split
    · simp
    · show (drainList db u).Pairwise _
      exact List.Pairwise.sublist (List.take_sublist _ _)
        (pairwise_sortByCreatedAtDesc _)

/-! ## Claim C3 (corrected: deliverQueuedMessages marks emitted messages read) -/

/-- C3 counterexample: before the drain, `exM3a` is pending for `r`; after
`deliverQueuedMessages` runs (merely emitting, with no delivery
confirmation), the store is mutated and the pending set for `r` is empty —
drain does remove envelopes from the pending set. -/
theorem C3_cex_drain_marks_read :
    getQueuedMessages [exM3a] "r" 200 = [exM3a]
    ∧ getQueuedMessages (deliverQueuedMessages [exM3a] "r" 200).newDb "r" 200 = []
    ∧ (deliverQueuedMessages [exM3a] "r" 200).newDb ≠ [exM3a] := by
  decide

/-- C3 (amended): `deliverQueuedMessages` marks every message it emitted as
read for the user immediately — solely because the drain emitted it, with no
delivery confirmation: every message in the updated store whose id was
returned by the drain carries a `readBy` entry for the user. -/
theorem C3_amended_deliver_marks_emitted (db : List Message) (u : String) (now : Nat)
    (m' : Message) (h1 : m' ∈ (deliverQueuedMessages db u now).newDb)
    (h2 : ∃ r ∈ (deliverQueuedMessages db u now).returned, r.msgId = m'.msgId) :
    readByUser m' u = true := by
  by_cases he : (drainList db u).isEmpty
  · rw [deliverQueuedMessages] at h2
    simp [he] at h2
  · rw [deliverQueuedMessages] at h1 h2
    simp only [he, Bool.false_eq_true, if_false] at h1 h2
    obtain ⟨m, hm, rfl⟩ := List.mem_map.mp h1
    obtain ⟨r, hr, hid⟩ := h2
    by_cases hc : (drainList db u).any (fun x => x.msgId == m.msgId)
    · simp only [hc, if_true]
      exact readByUser_addToSetReadBy u now m
    · exfalso
      apply hc
      rw [List.any_eq_true]
      refine ⟨r, hr, ?_⟩
      simp only [hc, if_false] at hid
      simp [hid]

/-- Witness for C3 (amended) at a concrete input: after draining `[exM3a]`
for `r`, the updated copy of `exM3a` carries a `readBy` entry for `r`. -/
theorem C3_amended_witness :
    readByUser (addToSetReadBy "r" 200 exM3a) "r" = true :=
  C3_amended_deliver_marks_emitted [exM3a] "r" 200 (addToSetReadBy "r" 200 exM3a)
    (by decide) (by decide)

/-! ## Claim C4 (corrected: live-delivered messages reappear in drain) -/

/-- C4 counterexample: after `bob`'s registration, `alice`'s `message:send`
is delivered live (broadcast to the room), yet the very same message appears
in a subsequent drain of `bob`'s queue — the drain query only excludes
messages `bob` has read, and live delivery adds no such entry. -/
theorem C4_cex_live_message_in_drain :
    SendAction.emitToRoom "chat:c1" "message:received" 1
        ∈ (messageSendHandler [exChatC1] [] "alice" "c1" "hi" 100 1).actions
    ∧ newMessageOf "alice" "c1" "hi" 100 1
        ∈ getQueuedMessages
            (messageSendHandler [exChatC1] [] "alice" "c1" "hi" 100 1).db "bob" 200 := by
  decide

/-- C4 (amended): a message dispatched (and broadcast live) after the
recipient's registration still appears in every subsequent drain within the
24-hour window, as long as the recipient differs from the sender: the drain
selects by `readBy` only and live delivery records nothing. -/
theorem C4_amended_live_message_reappears (chats : List Chat) (db : List Message)
    (chat : Chat) (sender chatId content recipient : String) (now newId now2 : Nat)
    (hfind : chats.find? (fun c => c.chatId == chatId) = some chat)
    (hpart : chat.participants.contains sender = true)
    (hne : (sender == recipient) = false)
    (hwin : now2 - DAY_MS ≤ now) :
    SendAction.emitToRoom ("chat:" ++ chatId) "message:received" newId
        ∈ (messageSendHandler chats db sender chatId content now newId).actions
    ∧ newMessageOf sender chatId content now newId
        ∈ getQueuedMessages
            (messageSendHandler chats db sender chatId content now newId).db
            recipient now2 := by
  rw [messageSendHandler, hfind]
  simp only [hpart, if_true]
  constructor
  · simp
  · refine List.mem_filter.mpr ⟨List.mem_append_right _ (List.mem_singleton_self _), ?_⟩
    simp [newMessageOf, readByUser, hne, hwin]

/-- Witness for C4 (amended) at a concrete input: `alice`'s live-broadcast
message in `c1` shows up in `bob`'s drain 100 ms later. -/
theorem C4_amended_live_message_reappears_witness :
    SendAction.emitToRoom ("chat:" ++ "c1") "message:received" 1
        ∈ (messageSendHandler [exChatC1] [] "alice" "c1" "hi" 100 1).actions
    ∧ newMessageOf "alice" "c1" "hi" 100 1
        ∈ getQueuedMessages
            (messageSendHandler [exChatC1] [] "alice" "c1" "hi" 100 1).db
            "bob" 200 :=
  C4_amended_live_message_reappears [exChatC1] [] exChatC1 "alice" "c1" "hi" "bob"
    100 1 200 (by decide) (by decide) (by decide) (by decide)

/-! ## Claim C5 (corrected: delivery recording is not idempotent) -/

/-- C5 counterexample: applying `trackMessageDelivery` a second time for the
same message/recipient pair is not a no-op — it changes the state and
publishes a second, externally visible delivery record (two bus messages
total). -/
theorem C5_cex_double_publish :
    trackMessageDelivery (trackMessageDelivery [] 1 "r" "delivered" 10)
        1 "r" "delivered" 10
      ≠ trackMessageDelivery [] 1 "r" "delivered" 10
    ∧ (trackMessageDelivery (trackMessageDelivery [] 1 "r" "delivered" 10)
        1 "r" "delivered" 10).length = 2 := by
  decide

/-- C5 (amended): `trackMessageDelivery` is unconditionally effectful: every
invocation — including a repeat for the same envelope and recipient —
publishes exactly one more delivery record to the exchange and therefore
never leaves the delivery state unchanged. -/
theorem C5_amended_track_always_publishes (published : List BusMessage)
    (messageId : Nat) (userId status : String) (now : Nat) :
    (trackMessageDelivery published messageId userId status now).length
      = published.length + 1
    ∧ trackMessageDelivery published messageId userId status now ≠ published := by
  constructor
  · simp [trackMessageDelivery]
  · intro hc
    have hlen := congrArg List.length hc
    simp [trackMessageDelivery] at hlen

/-! ## Claim C6 (corrected: deliverQueuedMessages ignores expiry) -/

/-- C6 counterexample: `exM6` is past its 24-hour window at the drain time
(its implicit expiry `createdAt + 24h` has passed), and `getQueuedMessages`
indeed excludes it, but `deliverQueuedMessages` has no age filter and still
returns the expired envelope. -/
theorem C6_cex_deliver_ignores_expiry :
    getQueuedMessages [exM6] "r" (2 * DAY_MS) = []
    ∧ exM6 ∈ (deliverQueuedMessages [exM6] "r" (2 * DAY_MS)).returned
    ∧ exM6.createdAt + DAY_MS < 2 * DAY_MS := by
  decide

/-- C6 (amended): the envelope expiry is fixed at enqueue time
(`expiresAt = enqueue time + 24h`, never extended), and `getQueuedMessages`
excludes messages older than the 24-hour window — but only that drain does;
`deliverQueuedMessages` applies no expiry bound (see the counterexample). -/
theorem C6_amended_expiry (u c : String) (msg : Message) (db : List Message)
    (user : String) (now : Nat) (m : Message)
    (hm : m ∈ getQueuedMessages db user now) :
    (queueOfflineMessage u c msg now).expiresAt
        = (queueOfflineMessage u c msg now).createdAt + DAY_MS
    ∧ now ≤ m.createdAt + DAY_MS := by
  constructor
  · rfl
  · have hp := (List.mem_filter.mp hm).2
    simp only [Bool.and_eq_true, decide_eq_true_eq] at hp
    exact Nat.sub_le_iff_le_add.mp hp.2

/-- Witness for C6 (amended) at a concrete input: a freshly queued envelope
expires exactly 24 hours after enqueue, and a message returned by
`getQueuedMessages` is within its window. -/
theorem C6_amended_expiry_witness :
    (queueOfflineMessage "b" "c1" exM6w 200).expiresAt
        = (queueOfflineMessage "b" "c1" exM6w 200).createdAt + DAY_MS
    ∧ 200 ≤ exM6w.createdAt + DAY_MS :=
  C6_amended_expiry "b" "c1" exM6w [exM6w] "r" 200 exM6w (by decide)

/-! ## Claim C7 (corrected: the capacity cap is global, and drain ignores it) -/

/-- C7 counterexample with cap 2: (i) with the shared queue at capacity
holding `a`'s envelope (oldest) and one of `b`'s, enqueueing for `b` evicts
`a`'s envelope even though `b` is below any per-recipient bound — eviction is
global, not per recipient; (ii) after `b`'s three messages overflowed the
cap-2 queue down to the newest two envelopes, a drain for `b` does not return
the newest two: it reads MongoDB, ignores the queue, and returns all three
(including the evicted oldest), and `deliverQueuedMessages` returns them
newest-first rather than in original relative order. -/
theorem C7_cex_global_cap :
    sendToQueueCapped 2 [exO1, exO2] exO3 = [exO2, exO3]
    ∧ sendToQueueCapped 2 [exOA, exOB1] exOB2 = [exOB1, exOB2]
    ∧ exOA.userId = "a" ∧ exOB2.userId = "b"
    ∧ getQueuedMessages [exM7a, exM7b, exM7c] "b" 400 = [exM7a, exM7b, exM7c]
    ∧ getQueuedMessages [exM7a, exM7b, exM7c] "b" 400 ≠ [exM7b, exM7c]
    ∧ (deliverQueuedMessages [exM7a, exM7b, exM7c] "b" 400).returned
        ≠ [exM7b, exM7c] := by
  decide

/-- C7 (amended): the RabbitMQ bound is a single cap on the shared
`offline_messages` queue: an enqueue is never rejected (the new envelope is
always in the queue afterwards), overflow evicts from the global head —
oldest first across all recipients, so the result is a suffix of the queue
plus the new envelope — and the bound is maintained; drains read MongoDB and
are unaffected by the queue's contents. -/
theorem C7_amended_global_queue (cap : Nat) (q : List OfflineMessage)
    (m : OfflineMessage) (hcap : 0 < cap) :
    m ∈ sendToQueueCapped cap q m
    ∧ List.IsSuffix (sendToQueueCapped cap q m) (q ++ [m])
    ∧ (q.length ≤ cap → (sendToQueueCapped cap q m).length ≤ cap) := by
  refine ⟨?_, List.drop_suffix _ _, ?_⟩
  · have hle : q.length + 1 - cap ≤ q.length := by omega
    rw [sendToQueueCapped, List.drop_append_of_le_length hle]
    exact List.mem_append_right _ (List.mem_singleton_self m)
  · intro hq
    rw [sendToQueueCapped, List.length_drop, List.length_append]
    simp only [List.length_singleton]
    omega

/-- Witness for C7 (amended) at a concrete input: enqueueing `exO3` into the
full cap-2 queue keeps the new envelope, keeps a suffix of the old queue, and
stays within the cap. -/
theorem C7_amended_global_queue_witness :
    exO3 ∈ sendToQueueCapped 2 [exO1, exO2] exO3
    ∧ List.IsSuffix (sendToQueueCapped 2 [exO1, exO2] exO3) ([exO1, exO2] ++ [exO3])
    ∧ ([exO1, exO2].length ≤ 2 → (sendToQueueCapped 2 [exO1, exO2] exO3).length ≤ 2) :=
  C7_amended_global_queue 2 [exO1, exO2] exO3 (by decide)

/-! ## Claim C10 (confirmed: drain selects by read-status only) -/

/-- C10: drain selects by recipient read-status (and, for
`getQueuedMessages`, the retention window; for `deliverQueuedMessages`, the
1000-message limit) only — chat membership plays no role: any stored,
non-deleted message lacking a `readBy` entry for the user, within those
bounds, is returned by both drains, whatever chat it belongs to. -/
theorem C10_drain_ignores_membership (db : List Message) (u : String) (now : Nat)
    (m : Message) (h1 : m ∈ db) (_hdel : m.isDeleted = false)
    (h2 : readByUser m u = false) (h3 : now - DAY_MS ≤ m.createdAt)
    (h4 : db.length ≤ 1000) :
    m ∈ getQueuedMessages db u now
    ∧ m ∈ (deliverQueuedMessages db u now).returned := by
  have hmem : m ∈ drainList db u := by
    rw [drainList]
    have hlen : (sortByCreatedAtDesc (db.filter (fun x => !readByUser x u))).length
        ≤ 1000 := by
      rw [length_sortByCreatedAtDesc]
      exact le_trans (List.length_filter_le _ _) h4
    rw [List.take_of_length_le hlen, mem_sortByCreatedAtDesc]
    exact List.mem_filter.mpr ⟨h1, by simp [h2]⟩
  constructor
  · exact List.mem_filter.mpr ⟨h1, by simp [h2, h3]⟩
  · have hne : drainList db u ≠ [] := List.ne_nil_of_mem hmem
    rw [deliverQueuedMessages]
    rw [if_neg (by simpa [List.isEmpty_iff] using hne)]
    exact hmem

/-- Witness for C10 at a concrete input: `exM10` lives in chat `c10`, whose
participants do not include `r`, and both drains for `r` return it anyway. -/
theorem C10_drain_ignores_membership_witness :
    exM10 ∈ getQueuedMessages [exM10] "r" 200
    ∧ exM10 ∈ (deliverQueuedMessages [exM10] "r" 200).returned :=
  C10_drain_ignores_membership [exM10] "r" 200 exM10
    (by decide) (by decide) (by decide) (by decide) (by decide)
